import Mathlib

/-
Shallow embedding of `internal_displacement/sql_pipeline.py`
(class `URLArticlePipelineSQL`).

Modelling conventions:
- The two SQLite tables are lists of rows; inserting appends at the end.
- The connection is opened at line 47 with `isolation_level=None`, i.e.
  sqlite3 autocommit mode: every executed statement takes effect
  immediately and `connection.commit()` is a no-op.
- The CSV-reading collaborator is modelled by passing the extracted
  column(s) as lists of strings; the scraper collaborator is a parameter
  `scrape : String → ScrapeResult` (deterministic per url within a run).
- Python exceptions raised and caught locally are modelled by the shape
  of the result; `print` diagnostics are collected in a log list.
- The `ThreadPoolExecutor`/`as_completed` drain loop of `process_urls`
  processes one completed future per step; the completion order is an
  arbitrary permutation of the submitted urls, passed as the `order`
  argument and constrained by a `List.Perm` hypothesis in the theorems.
-/

set_option autoImplicit false

namespace SqlPipeline

/-- The scraper collaborator's output for one article
(fields as consumed by `insert_article`, lines 60–66). -/
structure Article where
  title : String
  url : String
  authors : List String
  pubDate : String
  domain : String
  content : String
  contentType : String
  deriving DecidableEq, Repr

/-- One row of the `Articles` table
(schema at line 50: title, url, author, datetime, domain, content, content_type;
no PRIMARY KEY or UNIQUE constraint is declared). -/
structure ArticleRow where
  title : String
  url : String
  author : String
  datetime : String
  domain : String
  content : String
  contentType : String
  deriving DecidableEq, Repr

/-- One row of the `Labels` table (schema at line 51: url, category;
no constraint is declared). -/
structure LabelRow where
  url : String
  category : String
  deriving DecidableEq, Repr

/-- The persisted store: the two tables, as ordered lists of rows. -/
structure PipelineState where
  articles : List ArticleRow
  labels : List LabelRow
  deriving DecidableEq, Repr

/-- `__init__` (lines 43–51): `CREATE TABLE IF NOT EXISTS` for both tables —
a fresh store gets two empty tables, an existing store is left as it is. -/
def construct (existing : Option PipelineState) : PipelineState :=
  match existing with
  | none => { articles := [], labels := [] }
  | some st => st

/-- The row built by `insert_article` from an article (lines 60–69):
authors are joined with "," into a single string. -/
def rowOfArticle (a : Article) : ArticleRow :=
  { title := a.title
    url := a.url
    author := String.intercalate "," a.authors
    datetime := a.pubDate
    domain := a.domain
    content := a.content
    contentType := a.contentType }

/-- Diagnostics printed by the pipeline. -/
inductive LogMsg where
  | titleMsg : String → LogMsg
  | exceptionMsg : String → LogMsg
  deriving DecidableEq, Repr

/-- Whether a log entry is an `"Exception: ..."` diagnostic. -/
def LogMsg.isException : LogMsg → Bool
  | .exceptionMsg _ => true
  | .titleMsg _ => false

/-- `insert_article` (lines 53–74): executes
`INSERT INTO Articles VALUES (?,?,?,?,?,?,?)` and commits.
The `CREATE TABLE` statement at line 50 declares no PRIMARY KEY and no
UNIQUE constraint, so sqlite3 never raises `IntegrityError` for this
insert: the row is appended unconditionally and neither `except` branch
runs (the `IntegrityError` branch at line 72 would itself fail, since it
evaluates `self.url`, an attribute the pipeline object does not have).
Returns the new state and the diagnostics printed (always none). -/
def insert_article (a : Article) (st : PipelineState) : PipelineState × List LogMsg :=
  ({ st with articles := st.articles ++ [rowOfArticle a] }, [])

/-- The urls currently stored in the `Articles` table
(`SELECT url FROM Articles`, line 87). -/
def articleUrls (st : PipelineState) : List String :=
  st.articles.map (fun r => r.url)

/-- The urls currently stored in the `Labels` table
(`SELECT url FROM Labels`, line 116). -/
def labelUrls (st : PipelineState) : List String :=
  st.labels.map (fun r => r.url)

/-- Lines 85–88 of `process_urls`: the url column of the CSV filtered by
`u not in existing_urls` — the urls for which a scrape task is submitted
to the executor (one task per remaining CSV occurrence; duplicates inside
the CSV are kept). -/
def dispatchedUrls (csvUrls : List String) (st : PipelineState) : List String :=
  csvUrls.filter (fun u => ¬ u ∈ articleUrls st)

/-- Outcome of the scraper collaborator for one url:
`ok none` (no article), `ok (some a)`, or a raised exception. -/
inductive ScrapeResult where
  | ok : Option Article → ScrapeResult
  | err : String → ScrapeResult
  deriving DecidableEq, Repr

/-- Whether the scrape raised. -/
def ScrapeResult.isErr : ScrapeResult → Bool
  | .err _ => true
  | .ok _ => false

/-- The article the scrape yielded, if any. -/
def scrapeArticle (scrape : String → ScrapeResult) (u : String) : Option Article :=
  match scrape u with
  | .ok (some a) => some a
  | .ok none => none
  | .err _ => none

/-- The row that processing url `u` would append, if any. -/
def scrapeRow (scrape : String → ScrapeResult) (u : String) : Option ArticleRow :=
  (scrapeArticle scrape u).map rowOfArticle

/-- Result of draining the `as_completed` loop. -/
structure RunResult where
  state : PipelineState
  log : List LogMsg
  /-- The articles passed to `insert_article`, in completion order. -/
  attempted : List Article
  deriving DecidableEq, Repr

/-- Lines 94–103 of `process_urls`: drain the completed futures in
completion order `order`. For each one: if `f.result()` re-raises the
scrape's exception, print `"Exception: ..."` and continue; if the result
is `None`, discard it; otherwise print the title and call
`insert_article`. The loop catches every exception, so it always runs to
completion (the model is a total function). -/
def processResults (scrape : String → ScrapeResult) :
    List String → PipelineState → RunResult
  | [], st => ⟨st, [], []⟩
  | u :: rest, st =>
    match scrape u with
    | .err e =>
      let r := processResults scrape rest st
      ⟨r.state, .exceptionMsg e :: r.log, r.attempted⟩
    | .ok none => processResults scrape rest st
    | .ok (some a) =>
      let step := insert_article a st
      let r := processResults scrape rest step.1
      ⟨r.state, .titleMsg a.title :: (step.2 ++ r.log), a :: r.attempted⟩

/-- `process_urls` (lines 76–103): dedup the CSV's url column against the
`Articles` table, submit one scrape task per remaining url, and drain the
completions. `order` is the completion order produced by `as_completed`;
the theorems quantify over every permutation of the dispatched urls, with
submission order as the executable default. -/
def process_urls (scrape : String → ScrapeResult) (csvUrls : List String)
    (st : PipelineState) : RunResult :=
  processResults scrape (dispatchedUrls csvUrls st) st

/-- The `(url, label)` pairs `process_labeled_data` hands to `executemany`
(lines 115–119): the url column is filtered by membership in the `Labels`
table, but the label column is NOT filtered — `zip` then pairs the i-th
surviving url with the i-th label of the whole column. -/
def labelValues (urlsCol labelsCol : List String) (st : PipelineState) : List LabelRow :=
  (((urlsCol.filter (fun u => ¬ u ∈ labelUrls st))).zip labelsCol).map
    (fun p => { url := p.1, category := p.2 })

/-- `executemany("INSERT INTO Labels VALUES (?, ?)", values)` at line 120,
on the connection opened with `isolation_level=None` (line 47): sqlite3
autocommit mode, so every row's INSERT takes effect as soon as it is
executed and the trailing `connection.commit()` is a no-op. `failAt`
injects an environment failure (a store error raised while executing the
row at that index), modelling a mid-batch failure: rows already executed
stay committed. Returns the new state and whether an error propagated. -/
def executemanyLabels (failAt : Option Nat) (values : List LabelRow)
    (st : PipelineState) : PipelineState × Bool :=
  match failAt with
  | none => ({ st with labels := st.labels ++ values }, false)
  | some k =>
    if k < values.length then
      ({ st with labels := st.labels ++ values.take k }, true)
    else
      ({ st with labels := st.labels ++ values }, false)

/-- `process_labeled_data` (lines 105–121): read the url and label columns,
filter the urls against the `Labels` table, zip, and `executemany`. -/
def process_labeled_data (failAt : Option Nat) (urlsCol labelsCol : List String)
    (st : PipelineState) : PipelineState × Bool :=
  executemanyLabels failAt (labelValues urlsCol labelsCol st) st

/-- The rows of
`SELECT content,category FROM Articles INNER JOIN Labels ON Articles.url = Labels.url`
(line 131): nested-loop join, `Articles` outer. -/
def trainingRows (st : PipelineState) : List (String × String) :=
  st.articles.flatMap (fun a =>
    st.labels.filterMap (fun l =>
      if a.url = l.url then some (a.content, l.category) else none))

/-- A sqlite3 cursor over the join result: iterating it consumes it. -/
structure Cursor where
  rows : List (String × String)
  pos : Nat
  deriving DecidableEq, Repr

/-- Iterate the cursor to the end, yielding the remaining rows and
leaving the cursor exhausted. -/
def Cursor.drain (c : Cursor) : List (String × String) × Cursor :=
  (c.rows.drop c.pos, { c with pos := c.rows.length })

/-- `get_training_data` (lines 123–134): the SELECT returns a cursor; the
list comprehension `[r[1] for r in training_cases]` drains it to build the
labels; the features expression `np.array(r[0] for r in training_cases)`
then iterates the SAME, already-exhausted cursor (and `np.array` applied
to a generator does not materialise rows at all — modelled generously
here as materialising the generator, which still yields the empty
remainder of the cursor). Returns `(labels, features)`. -/
def get_training_data (st : PipelineState) : List String × List String :=
  let c0 : Cursor := ⟨trainingRows st, 0⟩
  let step1 := c0.drain
  let labels := step1.1.map (fun r => r.2)
  let step2 := step1.2.drain
  let features := step2.1.map (fun r => r.1)
  (labels, features)

/-- How many rows of a batch of `n` rows end up committed when the
injected failure point is `failAt`: all of them when no failure occurs
(also when the failure index is past the batch), the first `k` when the
failure hits the row at index `k < n` — each row's INSERT was already
committed in autocommit mode. -/
def commitCount (failAt : Option Nat) (n : Nat) : Nat :=
  match failAt with
  | none => n
  | some k => min k n

/-- A concrete article, used in the concrete evaluations below. -/
def articleA : Article :=
  { title := "Title A"
    url := "http://a.test"
    authors := ["Ann"]
    pubDate := "2017-01-01"
    domain := "a.test"
    content := "body a"
    contentType := "text/html" }

/-- A concrete article for the second url. -/
def articleB : Article :=
  { title := "Title B"
    url := "http://b.test"
    authors := ["Bob"]
    pubDate := "2017-01-02"
    domain := "b.test"
    content := "body b"
    contentType := "text/html" }

/-- A concrete scraper used by the witnesses: yields `articleA` for
`http://a.test`, no article for `http://b.test`, and raises for every
other url. -/
def scrapeW : String → ScrapeResult := fun u =>
  if u = "http://a.test" then ScrapeResult.ok (some articleA)
  else if u = "http://b.test" then ScrapeResult.ok none
  else ScrapeResult.err "boom"

/-! ### Helper lemmas -/

theorem dispatchedUrls_mem (csvUrls : List String) (st : PipelineState) (u : String) :
    u ∈ dispatchedUrls csvUrls st ↔ u ∈ csvUrls ∧ ¬ u ∈ articleUrls st := by
  simp [dispatchedUrls, List.mem_filter]

theorem processResults_state_articles (scrape : String → ScrapeResult)
    (order : List String) (st : PipelineState) :
    (processResults scrape order st).state.articles
      = st.articles ++ order.filterMap (scrapeRow scrape) := by
  induction order generalizing st with
  | nil => simp [processResults]
  | cons u rest ih =>
    cases h : scrape u with
    | err e => simp [processResults, h, ih, scrapeRow, scrapeArticle]
    | ok oa =>
      cases oa with
      | none => simp [processResults, h, ih, scrapeRow, scrapeArticle]
      | some a =>
        simp [processResults, h, ih, insert_article, scrapeRow, scrapeArticle]

theorem processResults_state_labels (scrape : String → ScrapeResult)
    (order : List String) (st : PipelineState) :
    (processResults scrape order st).state.labels = st.labels := by
  induction order generalizing st with
  | nil => simp [processResults]
  | cons u rest ih =>
    cases h : scrape u with
    | err e => simp [processResults, h, ih]
    | ok oa =>
      cases oa with
      | none => simp [processResults, h, ih]
      | some a => simp [processResults, h, ih, insert_article]

theorem processResults_attempted (scrape : String → ScrapeResult)
    (order : List String) (st : PipelineState) :
    (processResults scrape order st).attempted
      = order.filterMap (scrapeArticle scrape) := by
  induction order generalizing st with
  | nil => simp [processResults]
  | cons u rest ih =>
    cases h : scrape u with
    | err e => simp [processResults, h, ih, scrapeArticle]
    | ok oa =>
      cases oa with
      | none => simp [processResults, h, ih, scrapeArticle]
      | some a => simp [processResults, h, ih, scrapeArticle]

theorem processResults_log_exceptions (scrape : String → ScrapeResult)
    (order : List String) (st : PipelineState) :
    ((processResults scrape order st).log.filter LogMsg.isException).length
      = (order.filter (fun u => (scrape u).isErr)).length := by
  induction order generalizing st with
  | nil => simp [processResults]
  | cons u rest ih =>
    cases h : scrape u with
    | err e =>
      simp [processResults, h, ih, LogMsg.isException, ScrapeResult.isErr]
    | ok oa =>
      cases oa with
      | none => simp [processResults, h, ih, ScrapeResult.isErr]
      | some a =>
        simp [processResults, h, ih, insert_article, LogMsg.isException,
          ScrapeResult.isErr]

theorem articleUrls_processResults (scrape : String → ScrapeResult)
    (order : List String) (st : PipelineState) :
    articleUrls (processResults scrape order st).state
      = articleUrls st ++ (order.filterMap (scrapeRow scrape)).map (fun r => r.url) := by
  simp [articleUrls, processResults_state_articles]

theorem executemanyLabels_labels (failAt : Option Nat) (values : List LabelRow)
    (st : PipelineState) :
    ∃ s, (executemanyLabels failAt values st).1.labels = st.labels ++ s := by
  cases failAt with
  | none => exact ⟨values, rfl⟩
  | some k =>
    by_cases h : k < values.length
    · exact ⟨values.take k, by simp [executemanyLabels, h]⟩
    · exact ⟨values, by simp [executemanyLabels, h]⟩

theorem executemanyLabels_articles (failAt : Option Nat) (values : List LabelRow)
    (st : PipelineState) :
    (executemanyLabels failAt values st).1.articles = st.articles := by
  cases failAt with
  | none => rfl
  | some k =>
    by_cases h : k < values.length
    · simp [executemanyLabels, h]
    · simp [executemanyLabels, h]

theorem attempted_add_failures (scrape : String → ScrapeResult) (order : List String)
    (hnone : ∀ u ∈ order, scrape u ≠ ScrapeResult.ok none) :
    (order.filterMap (scrapeArticle scrape)).length
      + (order.filter (fun u => (scrape u).isErr)).length = order.length := by
  induction order with
  | nil => simp
  | cons u rest ih =>
    have hrest : ∀ v ∈ rest, scrape v ≠ ScrapeResult.ok none := fun v hv =>
      hnone v (List.mem_cons_of_mem u hv)
    have hres := ih hrest
    cases h : scrape u with
    | err e =>
      have hsa : scrapeArticle scrape u = none := by simp [scrapeArticle, h]
      have hf : (scrape u).isErr = true := by simp [h, ScrapeResult.isErr]
      simp only [List.filterMap_cons, hsa, List.filter_cons, hf, if_true,
        List.length_cons]
      omega
    | ok oa =>
      cases oa with
      | none => exact absurd h (hnone u (List.mem_cons_self u rest))
      | some a =>
        have hsa : scrapeArticle scrape u = some a := by simp [scrapeArticle, h]
        have hf : (scrape u).isErr = false := by simp [h, ScrapeResult.isErr]
        simp only [List.filterMap_cons, hsa, List.filter_cons, hf,
          Bool.false_eq_true, if_false, List.length_cons]
        omega

theorem scrapeW_url (u : String) (aa : Article)
    (h : scrapeW u = ScrapeResult.ok (some aa)) : aa.url = u := by
  by_cases h1 : u = "http://a.test"
  · subst h1
    simp [scrapeW] at h
    subst h
    rfl
  · by_cases h2 : u = "http://b.test"
    · subst h2; simp [scrapeW] at h
    · simp [scrapeW, h1, h2] at h

/-! ### Claim theorems -/

/-- **C1** — the claim states that every inserted (url, category) row pairs a
url with the category from that url's own CSV row. The code violates this:
`process_labeled_data` filters the url column against the Labels table but
zips the SURVIVING urls against the UNFILTERED label column. Evaluating the
code at the failing input: the Labels table already holds `http://a.test`;
the CSV rows are (`http://a.test`, `t1`) and (`http://b.test`, `t2`); the
code inserts (`http://b.test`, `t1`), pairing `http://b.test` with the
category of `http://a.test`'s row. -/
theorem c1_label_misalignment :
    (process_labeled_data none ["http://a.test", "http://b.test"] ["t1", "t2"]
        { articles := [], labels := [{ url := "http://a.test", category := "t0" }] }).1.labels
      = [{ url := "http://a.test", category := "t0" },
         { url := "http://b.test", category := "t1" }] := by
  decide

/-- **C2** — the claim states that `get_training_data` returns two parallel
sequences with one content/label pair per joined row. The code violates
this: the labels list comprehension exhausts the cursor, and the features
expression is a generator over that same exhausted cursor (wrapped,
unmaterialised, by `np.array`), so it yields no rows. Evaluating the code
at a store whose join has exactly one row: the labels sequence has one
element and the features sequence is empty. -/
theorem c2_features_empty :
    get_training_data
        { articles := [rowOfArticle articleA],
          labels := [{ url := "http://a.test", category := "disaster" }] }
      = (["disaster"], []) := by
  decide

/-- **C3** — the claim states that after any sequence of `insert_article`
calls on a fresh store, at most one Articles row exists per url. The code
violates this: the `CREATE TABLE` statement declares no PRIMARY KEY or
UNIQUE constraint (contradicting the module docstring, which says both
tables use URL as the primary key), so inserting the same article twice
appends two rows with the same url. -/
theorem c3_duplicate_url_two_rows :
    ((insert_article articleA
        (insert_article articleA (construct none)).1).1.articles.countP
      (fun r => r.url = "http://a.test")) = 2 := by
  decide

/-- **C4** — the claim states that inserting an article whose url is already
present is a no-op on the store that emits a diagnostic. The code violates
this: since no uniqueness constraint exists, no `IntegrityError` is raised —
the duplicate row is appended (the store changes) and no diagnostic is
printed. (Were the engine to raise the violation, the handler at line 72
would itself crash on `self.url`, a missing attribute.) -/
theorem c4_duplicate_insert_not_noop :
    (insert_article articleA (insert_article articleA (construct none)).1).1
        ≠ (insert_article articleA (construct none)).1
    ∧ (insert_article articleA (insert_article articleA (construct none)).1).2 = [] := by
  decide

/-- **C5** — `process_urls` never dispatches a scrape task for a url already
present in the Articles table, and the dispatched urls are exactly the
CSV's url column minus the urls already stored: membership in the
dispatched list is equivalent to membership in the CSV column together
with absence from the stored urls. -/
theorem c5_dedup_exact (csvUrls : List String) (st : PipelineState) (u : String) :
    u ∈ dispatchedUrls csvUrls st ↔ u ∈ csvUrls ∧ ¬ u ∈ articleUrls st :=
  dispatchedUrls_mem csvUrls st u

/-- **C7 counterexample** — the claim states that the filtered batch is
committed atomically: on a mid-batch failure the Labels table is
unchanged. Injecting a failure while executing the second row of a
two-row batch: an error propagates, yet the first row is persisted —
neither none nor all of the batch. -/
theorem c7_not_atomic :
    (process_labeled_data (some 1) ["http://u1.test", "http://u2.test"]
        ["c1", "c2"] { articles := [], labels := [] }).2 = true
    ∧ (process_labeled_data (some 1) ["http://u1.test", "http://u2.test"]
        ["c1", "c2"] { articles := [], labels := [] }).1.labels
      = [{ url := "http://u1.test", category := "c1" }] := by
  decide

/-- **C7 (amended)** — the connection is opened with `isolation_level=None`
(sqlite3 autocommit), so `process_labeled_data` commits row by row: the
Labels table always ends as the old rows followed by the prefix of the
filtered batch that executed before the failure point — the whole batch
when no failure occurs, the first `k` rows when the failure hits index
`k`. -/
theorem c7_autocommit_prefix (failAt : Option Nat) (urlsCol labelsCol : List String)
    (st : PipelineState) :
    (process_labeled_data failAt urlsCol labelsCol st).1.labels
      = st.labels ++ (labelValues urlsCol labelsCol st).take
          (commitCount failAt (labelValues urlsCol labelsCol st).length) := by
  cases failAt with
  | none => simp [process_labeled_data, executemanyLabels, commitCount]
  | some k =>
    by_cases h : k < (labelValues urlsCol labelsCol st).length
    · have hmin : min k (labelValues urlsCol labelsCol st).length = k :=
        Nat.min_eq_left (Nat.le_of_lt h)
      simp [process_labeled_data, executemanyLabels, commitCount, h, hmin]
    · have hle : (labelValues urlsCol labelsCol st).length ≤ k := Nat.le_of_not_lt h
      have hmin : min k (labelValues urlsCol labelsCol st).length
          = (labelValues urlsCol labelsCol st).length := Nat.min_eq_right hle
      simp [process_labeled_data, executemanyLabels, commitCount, h, hmin]

/-- **C6** — `process_urls` is idempotent at the whole-pipeline level: a
second run with the same CSV after a complete first run passes no article
to `insert_article` and leaves the Articles table exactly as the first run
left it, for every completion order of either run. Uses the collaborator
contract that a successfully scraped article carries the url it was
scraped from. -/
theorem c6_idempotent (scrape : String → ScrapeResult) (csvUrls : List String)
    (st : PipelineState) (order1 order2 : List String)
    (hurl : ∀ u aa, scrape u = ScrapeResult.ok (some aa) → aa.url = u)
    (h1 : order1.Perm (dispatchedUrls csvUrls st))
    (h2 : order2.Perm (dispatchedUrls csvUrls (processResults scrape order1 st).state)) :
    (processResults scrape order2 (processResults scrape order1 st).state).attempted = []
    ∧ (processResults scrape order2 (processResults scrape order1 st).state).state.articles
        = (processResults scrape order1 st).state.articles := by
  have key : ∀ u ∈ order2, scrapeArticle scrape u = none := by
    intro u hu
    have hmem := h2.mem_iff.mp hu
    rw [dispatchedUrls_mem] at hmem
    obtain ⟨hcsv, hnot1⟩ := hmem
    cases hsc : scrape u with
    | err e => simp [scrapeArticle, hsc]
    | ok oa =>
      cases oa with
      | none => simp [scrapeArticle, hsc]
      | some aa =>
        exfalso
        apply hnot1
        have haurl : aa.url = u := hurl u aa hsc
        have hnot0 : ¬ u ∈ articleUrls st := by
          intro hmem0
          apply hnot1
          rw [articleUrls_processResults]
          exact List.mem_append_left _ hmem0
        have hu1 : u ∈ order1 :=
          h1.mem_iff.mpr ((dispatchedUrls_mem _ _ _).mpr ⟨hcsv, hnot0⟩)
        rw [articleUrls_processResults]
        apply List.mem_append_right
        rw [List.mem_map]
        refine ⟨rowOfArticle aa, ?_, haurl⟩
        rw [List.mem_filterMap]
        exact ⟨u, hu1, by simp [scrapeRow, scrapeArticle, hsc]⟩
  constructor
  · rw [processResults_attempted]
    exact List.filterMap_eq_nil_iff.mpr key
  · rw [processResults_state_articles]
    have hnil : order2.filterMap (scrapeRow scrape) = [] := by
      apply List.filterMap_eq_nil_iff.mpr
      intro v hv
      simp [scrapeRow, key v hv]
    rw [hnil, List.append_nil]

/-- Witness for C6: a two-url CSV against a fresh store, where the first
url scrapes to `articleA` and the second yields no article; the second run
dispatches only the still-unstored second url and changes nothing. -/
theorem c6_witness :
    (processResults scrapeW ["http://b.test"]
        (processResults scrapeW ["http://a.test", "http://b.test"] (construct none)).state).attempted = []
    ∧ (processResults scrapeW ["http://b.test"]
        (processResults scrapeW ["http://a.test", "http://b.test"] (construct none)).state).state.articles
      = (processResults scrapeW ["http://a.test", "http://b.test"] (construct none)).state.articles :=
  c6_idempotent scrapeW ["http://a.test", "http://b.test"] (construct none)
    ["http://a.test", "http://b.test"] ["http://b.test"]
    (fun u aa h => scrapeW_url u aa h) (by decide) (by decide)

/-- **C8** — partial-failure tolerance of the `process_urls` drain loop:
for a batch of `N` dispatched urls of which `M` scrape calls raise and the
rest each yield an article, exactly `N − M` articles are passed to
`insert_article` and one `"Exception: ..."` diagnostic is logged per
failure. The loop catches every exception, so the model is a total
function: the run always produces a `RunResult` (nothing propagates to
the caller). -/
theorem c8_partial_failure (scrape : String → ScrapeResult) (csvUrls : List String)
    (st : PipelineState) (order : List String)
    (hord : order.Perm (dispatchedUrls csvUrls st))
    (hnone : ∀ u ∈ order, scrape u ≠ ScrapeResult.ok none) :
    (processResults scrape order st).attempted.length
        = (dispatchedUrls csvUrls st).length
          - ((dispatchedUrls csvUrls st).filter (fun u => (scrape u).isErr)).length
    ∧ ((processResults scrape order st).log.filter LogMsg.isException).length
        = ((dispatchedUrls csvUrls st).filter (fun u => (scrape u).isErr)).length := by
  have hlen : order.length = (dispatchedUrls csvUrls st).length := hord.length_eq
  have hfil : (order.filter (fun u => (scrape u).isErr)).length
      = ((dispatchedUrls csvUrls st).filter (fun u => (scrape u).isErr)).length :=
    (hord.filter _).length_eq
  constructor
  · rw [processResults_attempted]
    have h := attempted_add_failures scrape order hnone
    omega
  · rw [processResults_log_exceptions, hfil]

/-- Witness for C8: a fresh store and a two-url batch in which the first
url scrapes successfully and the second raises — one article attempted,
one exception logged. -/
theorem c8_witness :
    (processResults scrapeW ["http://a.test", "http://c.test"] (construct none)).attempted.length
        = (dispatchedUrls ["http://a.test", "http://c.test"] (construct none)).length
          - ((dispatchedUrls ["http://a.test", "http://c.test"] (construct none)).filter
              (fun u => (scrapeW u).isErr)).length
    ∧ ((processResults scrapeW ["http://a.test", "http://c.test"] (construct none)).log.filter
          LogMsg.isException).length
        = ((dispatchedUrls ["http://a.test", "http://c.test"] (construct none)).filter
              (fun u => (scrapeW u).isErr)).length :=
  c8_partial_failure scrapeW ["http://a.test", "http://c.test"] (construct none)
    ["http://a.test", "http://c.test"] (by decide) (by decide)

/-- **C9** — every operation only appends rows: re-running construction on
an existing store returns it unchanged, `insert_article` appends exactly
one Articles row and leaves Labels alone, the `process_urls` drain loop
only appends to Articles and leaves Labels alone, and
`process_labeled_data` only appends to Labels and leaves Articles alone.
(`get_training_data` takes the state and returns only data, so in this
model it cannot modify the store at all.) -/
theorem c9_append_only (st : PipelineState) (a : Article)
    (scrape : String → ScrapeResult) (order : List String)
    (failAt : Option Nat) (urlsCol labelsCol : List String) :
    construct (some st) = st
    ∧ (insert_article a st).1.articles = st.articles ++ [rowOfArticle a]
    ∧ (insert_article a st).1.labels = st.labels
    ∧ (∃ s, (processResults scrape order st).state.articles = st.articles ++ s)
    ∧ (processResults scrape order st).state.labels = st.labels
    ∧ (∃ s, (process_labeled_data failAt urlsCol labelsCol st).1.labels = st.labels ++ s)
    ∧ (process_labeled_data failAt urlsCol labelsCol st).1.articles = st.articles :=
  ⟨rfl, rfl, rfl,
    ⟨order.filterMap (scrapeRow scrape), processResults_state_articles scrape order st⟩,
    processResults_state_labels scrape order st,
    executemanyLabels_labels failAt (labelValues urlsCol labelsCol st) st,
    executemanyLabels_articles failAt (labelValues urlsCol labelsCol st) st⟩

/-- **C10** — `process_urls` does not deduplicate within the CSV itself:
a url absent from the Articles table that occurs `k` times in the CSV
column occurs `k` times in the dispatched batch (one scrape task each),
and when its scrape succeeds with an article, the final Articles table
holds at least `k` more copies of that article's row than the initial
table. -/
theorem c10_no_intra_csv_dedup (scrape : String → ScrapeResult)
    (csvUrls : List String) (st : PipelineState) (order : List String)
    (u : String) (a : Article) (k : Nat)
    (hnot : ¬ u ∈ articleUrls st)
    (hcount : csvUrls.count u = k)
    (hord : order.Perm (dispatchedUrls csvUrls st))
    (hs : scrape u = ScrapeResult.ok (some a)) :
    (dispatchedUrls csvUrls st).count u = k
    ∧ st.articles.count (rowOfArticle a) + k
        ≤ (processResults scrape order st).state.articles.count (rowOfArticle a) := by
  have hdisp : (dispatchedUrls csvUrls st).count u = k := by
    rw [dispatchedUrls, List.count_filter (by simpa using hnot)]
    exact hcount
  refine ⟨hdisp, ?_⟩
  rw [processResults_state_articles, List.count_append]
  have h1 : order.count u = k := by rw [hord.count_eq]; exact hdisp
  have h2 : order.count u ≤ (order.filterMap (scrapeRow scrape)).count (rowOfArticle a) := by
    rw [List.count_filterMap, List.count_eq_countP]
    apply List.countP_mono_left
    intro x _ hbx
    have hx : x = u := by simpa using hbx
    subst hx
    simp [scrapeRow, scrapeArticle, hs]
  omega

/-- Witness for C10: a CSV listing `http://a.test` twice against a fresh
store — both occurrences are dispatched and two identical rows end up in
the Articles table. -/
theorem c10_witness :
    (dispatchedUrls ["http://a.test", "http://a.test"] (construct none)).count "http://a.test" = 2
    ∧ (construct none).articles.count (rowOfArticle articleA) + 2
        ≤ (processResults scrapeW ["http://a.test", "http://a.test"]
            (construct none)).state.articles.count (rowOfArticle articleA) :=
  c10_no_intra_csv_dedup scrapeW ["http://a.test", "http://a.test"] (construct none)
    ["http://a.test", "http://a.test"] "http://a.test" articleA 2
    (by decide) (by decide) (by decide) (by decide)

end SqlPipeline
